import Mathlib

set_option linter.unusedVariables false

/-!
Shallow embedding of the event-driven order-processing system
(cart service, inventory service, order service, notification service).

Each service's durable state is modelled as the lists of rows of the tables
that service's `initializeDatabase` creates; each HTTP operation and each
pub/sub message handler is a function from state (and input) to the new
state, the list of published events, and the ack/nack decision.  Database
reads and writes succeed in the model except where a query references a
column that does not exist in the declared schema, which is modelled as the
error the database would raise (the transaction then rolls back, i.e. the
state is returned unchanged).

Quantities are INTEGER columns and are modelled as `Int`; DECIMAL prices
are modelled as `Int` (an exact fixed-point reading); ids generated by
SERIAL columns are modelled with an explicit counter in the state.

The repository contains two variants of the order service in its history;
the one embedded here is the current one, which carries the
`processed_messages` idempotency ledger.
-/

/-- A pub/sub message: the transport-assigned unique id plus the decoded
JSON payload. -/
structure Msg (α : Type) where
  id : String
  data : α
deriving DecidableEq

/-- The handler's final transport decision. -/
inductive Ack where
  | ack
  | nack
deriving DecidableEq

/-- An `{sku, quantity}` pair as carried by `order-requested` /
`order-cancelled` events. -/
structure ReqItem where
  product_sku : String
  quantity : Int
deriving DecidableEq

/-- A `{sku, requested, available}` entry of the `inventory-status` and
`stock-rejected` payloads. -/
structure CheckDetail where
  product_sku : String
  requested : Int
  available : Int
deriving DecidableEq

/-- An item of the `stock-available` event as published by the inventory
service: `{sku, quantity, available}`. -/
structure StockItem where
  product_sku : String
  quantity : Int
  available : Int
deriving DecidableEq

/-- `OrderRequestedEvent` (topic `order-requested`). -/
structure OrderRequestedEvent where
  cart_id : String
  customer_id : String
  items : List ReqItem
deriving DecidableEq

/-- `InventoryStatusEvent` (topic `inventory-status`). -/
structure InventoryStatusEvent where
  cart_id : String
  customer_id : String
  status : String
  details : List CheckDetail
deriving DecidableEq

/-- `StockRejectedEvent` (topic `stock.rejected`). -/
structure StockRejectedEvent where
  cart_id : String
  customer_id : String
  reason : String
  details : List CheckDetail
deriving DecidableEq

/-- `StockAvailableEvent` as published by the inventory service
(topic `stock-available`). -/
structure StockAvailableEvent where
  cart_id : String
  customer_id : String
  items : List StockItem
deriving DecidableEq

/-- `OrderCancelledEvent` (topic `order.cancelled`). -/
structure OrderCancelledEvent where
  order_id : String
  customer_id : String
  cart_id : String
  reason : String
  items : List ReqItem
deriving DecidableEq

/-- Payload of the `inventory.status.updated` low-stock event. -/
structure InventoryUpdatedEvent where
  product_sku : String
  quantity : Int
  status : String
deriving DecidableEq

/-- A row of the `processed_messages` ledger table
(`UNIQUE(message_id, service_name)`). -/
structure ProcessedMessageRow where
  message_id : String
  event_type : String
  service_name : String
  status : String
  error_message : Option String
deriving DecidableEq

/-- `isMessageProcessed`: `SELECT id FROM processed_messages WHERE
message_id = $1 AND service_name = $2` — true iff a row exists, whatever
its status. -/
def isMessageProcessed (ledger : List ProcessedMessageRow)
    (messageId serviceName : String) : Bool :=
  ledger.any (fun r => r.message_id == messageId && r.service_name == serviceName)

/-- `markMessageProcessed`: an INSERT into `processed_messages`.  A
violation of the `(message_id, service_name)` uniqueness constraint is
caught and swallowed by the source, so marking an already-marked message
leaves the ledger unchanged. -/
def markMessageProcessed (ledger : List ProcessedMessageRow)
    (messageId eventType serviceName status : String)
    (errorMessage : Option String) : List ProcessedMessageRow :=
  if ledger.any (fun r => r.message_id == messageId && r.service_name == serviceName) then
    ledger
  else
    ledger ++ [{ message_id := messageId, event_type := eventType,
                 service_name := serviceName, status := status,
                 error_message := errorMessage }]

/-! ## Inventory service -/

/-- A row of the inventory service's `inventory` table. -/
structure InventoryRow where
  product_sku : String
  quantity : Int
  min_quantity : Int
  max_quantity : Int
deriving DecidableEq

/-- Durable state owned by the inventory service. -/
structure InvState where
  inventory : List InventoryRow
  processed : List ProcessedMessageRow
deriving DecidableEq

/-- Events the inventory service can publish. -/
inductive InvEvent where
  | inventoryStatus (e : InventoryStatusEvent)
  | stockAvailable (e : StockAvailableEvent)
  | stockRejected (e : StockRejectedEvent)
  | inventoryStatusUpdated (e : InventoryUpdatedEvent)
deriving DecidableEq

/-- `SELECT quantity FROM inventory WHERE product_sku = $1` followed by
`result.rows[0]?.quantity || 0`: the first matching row's quantity, or 0
when the SKU has no inventory row. -/
def availableQuantity (inv : List InventoryRow) (sku : String) : Int :=
  match inv.find? (fun r => r.product_sku == sku) with
  | some r => r.quantity
  | none => 0

/-- One evaluated line of the availability check. -/
structure InventoryCheck where
  product_sku : String
  requested : Int
  available : Int
  sufficient : Bool
deriving DecidableEq

/-- The `inventoryChecks` computation of the order-requested handler:
for every requested line, read the current quantity and compare. -/
def inventoryChecks (inv : List InventoryRow) (items : List ReqItem) :
    List InventoryCheck :=
  items.map (fun item =>
    let available := availableQuantity inv item.product_sku
    { product_sku := item.product_sku
      requested := item.quantity
      available := available
      sufficient := decide (available ≥ item.quantity) })

/-- The inventory service's handler for `order-requested` messages
(`orderRequestedSubscription.on message`). -/
def orderRequestedHandler (st : InvState) (msg : Msg OrderRequestedEvent) :
    InvState × List InvEvent × Ack :=
  if isMessageProcessed st.processed msg.id "inventory-service" then
    (st, [], Ack.ack)
  else
    let data := msg.data
    let checks := inventoryChecks st.inventory data.items
    let allSufficient := checks.all (fun c => c.sufficient)
    let details : List CheckDetail := checks.map (fun c =>
      { product_sku := c.product_sku, requested := c.requested,
        available := c.available })
    let statusEvent : InventoryStatusEvent :=
      { cart_id := data.cart_id
        customer_id := data.customer_id
        status := if allSufficient then "sufficient" else "insufficient"
        details := details }
    let decisionEvent : InvEvent :=
      if allSufficient then
        InvEvent.stockAvailable
          { cart_id := data.cart_id
            customer_id := data.customer_id
            items := details.map (fun d =>
              { product_sku := d.product_sku, quantity := d.requested,
                available := d.available }) }
      else
        InvEvent.stockRejected
          { cart_id := data.cart_id
            customer_id := data.customer_id
            reason := "insufficient_stock"
            details := details }
    ({ st with processed := markMessageProcessed st.processed msg.id
                 "order-requested" "inventory-service" "success" none },
     [InvEvent.inventoryStatus statusEvent, decisionEvent],
     Ack.ack)

/-- The restock loop of the order-cancelled handler: for each item,
`UPDATE inventory SET quantity = quantity + $1 WHERE product_sku = $2`
(every row with that SKU is incremented; an absent SKU updates no row). -/
def restock (inv : List InventoryRow) (items : List ReqItem) : List InventoryRow :=
  items.foldl
    (fun acc item =>
      acc.map (fun r =>
        if r.product_sku == item.product_sku then
          { r with quantity := r.quantity + item.quantity }
        else r))
    inv

/-- The inventory service's handler for `order-cancelled` messages
(`orderCancelledSubscription.on message`). -/
def orderCancelledHandler (st : InvState) (msg : Msg OrderCancelledEvent) :
    InvState × List InvEvent × Ack :=
  if isMessageProcessed st.processed msg.id "inventory-service" then
    (st, [], Ack.ack)
  else
    ({ inventory := restock st.inventory msg.data.items
       processed := markMessageProcessed st.processed msg.id
         "order-cancelled" "inventory-service" "success" none },
     [],
     Ack.ack)

/-- `PUT /inventory/:sku`: set the quantity absolutely; 404 (no state
change) when the SKU has no row; publish a low-stock event when the updated
row's quantity is at or below its minimum. -/
def putInventory (st : InvState) (sku : String) (newQuantity : Int) :
    InvState × List InvEvent :=
  if st.inventory.any (fun r => r.product_sku == sku) then
    let inventory := st.inventory.map (fun r =>
      if r.product_sku == sku then { r with quantity := newQuantity } else r)
    let st1 := { st with inventory := inventory }
    match inventory.find? (fun r => r.product_sku == sku) with
    | some r =>
      if r.quantity ≤ r.min_quantity then
        (st1, [InvEvent.inventoryStatusUpdated
                 { product_sku := r.product_sku, quantity := r.quantity,
                   status := "low_stock" }])
      else (st1, [])
    | none => (st1, [])
  else (st, [])

/-! ## Cart service -/

/-- A row of the cart service's `carts` table.  The id column is a UUID; it
is modelled as the string produced by an injective counter. -/
structure CartRow where
  id : String
  customer_id : String
  cart_locked : Bool
  status : String
deriving DecidableEq

/-- A row of the `cart_items` table (`UNIQUE(cart_id, product_sku)`). -/
structure CartItemRow where
  cart_id : String
  product_sku : String
  quantity : Int
deriving DecidableEq

/-- Durable state owned by the cart service, plus the id supply standing in
for `gen_random_uuid()`. -/
structure CartState where
  carts : List CartRow
  cart_items : List CartItemRow
  nextCartId : Nat
deriving DecidableEq

/-- Stand-in for `gen_random_uuid()`: injective in the counter. -/
def newCartId (n : Nat) : String :=
  "cart-" ++ toString n

/-- `SELECT * FROM carts WHERE customer_id = $1 AND cart_locked = FALSE`,
taking `rows[0]`. -/
def findUnlockedCart (st : CartState) (customerId : String) : Option CartRow :=
  st.carts.find? (fun c => c.customer_id == customerId && !c.cart_locked)

/-- `SELECT * FROM cart_items WHERE cart_id = $1`. -/
def itemsOfCart (st : CartState) (cartId : String) : List CartItemRow :=
  st.cart_items.filter (fun i => i.cart_id == cartId)

/-- The cart service's request-level failures. -/
inductive CartError where
  | invalidInput
  | notFound
deriving DecidableEq

/-- `POST /cart/items`: reject when `!product_sku || !quantity ||
quantity < 1`; otherwise find or create the customer's unlocked cart and
upsert the line (`ON CONFLICT ... DO UPDATE SET quantity =
cart_items.quantity + $3`); return the cart and its items. -/
def addItem (st : CartState) (customerId productSku : String) (quantity : Int) :
    Except CartError (CartState × CartRow × List CartItemRow) :=
  if productSku == "" || quantity == 0 || quantity < 1 then
    Except.error CartError.invalidInput
  else
    let stCart : CartState × CartRow :=
      match findUnlockedCart st customerId with
      | some cart => (st, cart)
      | none =>
        let cart : CartRow :=
          { id := newCartId st.nextCartId, customer_id := customerId,
            cart_locked := false, status := "active" }
        ({ st with carts := st.carts ++ [cart], nextCartId := st.nextCartId + 1 },
         cart)
    let st1 := stCart.1
    let cart := stCart.2
    let items :=
      if st1.cart_items.any (fun i => i.cart_id == cart.id && i.product_sku == productSku) then
        st1.cart_items.map (fun i =>
          if i.cart_id == cart.id && i.product_sku == productSku then
            { i with quantity := i.quantity + quantity }
          else i)
      else
        st1.cart_items ++
          [{ cart_id := cart.id, product_sku := productSku, quantity := quantity }]
    let st2 := { st1 with cart_items := items }
    Except.ok (st2, cart, itemsOfCart st2 cart.id)

/-- `DELETE /cart/items/:product_sku`: 404 when the customer has no
unlocked cart; otherwise delete the matching rows (a no-op when the item is
absent) and return the cart and its items. -/
def removeItem (st : CartState) (customerId productSku : String) :
    Except CartError (CartState × CartRow × List CartItemRow) :=
  match findUnlockedCart st customerId with
  | none => Except.error CartError.notFound
  | some cart =>
    let st1 := { st with cart_items := st.cart_items.filter (fun i =>
      !(i.cart_id == cart.id && i.product_sku == productSku)) }
    Except.ok (st1, cart, itemsOfCart st1 cart.id)

/-- `GET /cart`: the unlocked cart and its items, or nothing (not an
error) when none exists. -/
def getCart (st : CartState) (customerId : String) :
    Option (CartRow × List CartItemRow) :=
  (findUnlockedCart st customerId).map (fun cart => (cart, itemsOfCart st cart.id))

/-- Failures of `POST /cart/convert-to-order`. -/
inductive ConvertError where
  | notFound
  | emptyCart
deriving DecidableEq

/-- `POST /cart/convert-to-order`, a single transaction: re-read the
unlocked cart (404 when absent), read its items (400 when empty), set
`cart_locked = TRUE`, and publish the `order-requested` event built from
the cart's rows before the COMMIT.  The returned pair is the committed
state together with the published event. -/
def convertToOrder (st : CartState) (customerId : String) :
    Except ConvertError (CartState × OrderRequestedEvent) :=
  match findUnlockedCart st customerId with
  | none => Except.error ConvertError.notFound
  | some cart =>
    let items := itemsOfCart st cart.id
    if items.isEmpty then
      Except.error ConvertError.emptyCart
    else
      let st1 := { st with carts := st.carts.map (fun c =>
        if c.id == cart.id then { c with cart_locked := true } else c) }
      Except.ok (st1,
        { cart_id := cart.id
          customer_id := cart.customer_id
          items := items.map (fun i =>
            { product_sku := i.product_sku, quantity := i.quantity }) })

/-- The cart service's handler for `stock.rejected` messages: `UPDATE
carts SET status = $1 WHERE id = $2` with status `stock-unavailable`.
This subscription performs no ledger check. -/
def stockRejectedHandler (st : CartState) (e : StockRejectedEvent) : CartState :=
  { st with carts := st.carts.map (fun c =>
      if c.id == e.cart_id then { c with status := "stock-unavailable" } else c) }

/-! ## Order service

The order service embedded here is the variant that creates the
`processed_messages` ledger and checks it in its `stock-available`
subscription. -/

/-- An item `{sku, quantity, price}` as the order service declares the
`stock-available` payload (`StockAvailableEvent` of the order service;
note it carries a `price` the inventory service does not publish). -/
structure PricedItem where
  product_sku : String
  quantity : Int
  price : Int
deriving DecidableEq

/-- The `stock-available` payload in the order service's declared shape. -/
structure StockAvailablePricedEvent where
  cart_id : String
  customer_id : String
  items : List PricedItem
deriving DecidableEq

/-- `OrderCreatedEvent` as published by the order service
(topic `order.created`). -/
structure OrderCreatedEvent where
  order_id : String
  customer_id : String
  cart_id : String
  total_amount : Int
  items : List PricedItem
deriving DecidableEq

/-- Events the order service can publish. -/
inductive OrdEvent where
  | orderCreated (e : OrderCreatedEvent)
  | orderCancelled (e : OrderCancelledEvent)
deriving DecidableEq

/-- A row of the `orders` table (`id SERIAL`). -/
structure OrderRow where
  id : Nat
  customer_id : String
  cart_id : String
  status : String
  total_amount : Int
deriving DecidableEq

/-- A row of the `order_items` table: its columns are exactly
`id, order_id, product_sku, quantity, price` — it has no `cart_id`. -/
structure OrderItemRow where
  order_id : Nat
  product_sku : String
  quantity : Int
  price : Int
deriving DecidableEq

/-- Durable state owned by the order service; `nextOrderId` models the
SERIAL id supply. -/
structure OrderState where
  orders : List OrderRow
  order_items : List OrderItemRow
  processed : List ProcessedMessageRow
  nextOrderId : Nat
deriving DecidableEq

/-- The order service's handler for `stock-available` messages
(`stockAvailableSubscription.on message`): after the ledger check, insert
one order row (status string `created`) whose total is
`reduce (sum, item) => sum + item.price * item.quantity` over the event's
items, insert one `order_items` row per event item, and publish
`order.created`. -/
def stockAvailableHandler (st : OrderState) (msg : Msg StockAvailablePricedEvent) :
    OrderState × List OrdEvent × Ack :=
  if isMessageProcessed st.processed msg.id "order-service" then
    (st, [], Ack.ack)
  else
    let data := msg.data
    let initialTotal := data.items.foldl
      (fun sum item => sum + item.price * item.quantity) 0
    let orderId := st.nextOrderId
    let newOrder : OrderRow :=
      { id := orderId, customer_id := data.customer_id, cart_id := data.cart_id,
        status := "created", total_amount := initialTotal }
    let newItems : List OrderItemRow := data.items.map (fun item =>
      { order_id := orderId, product_sku := item.product_sku,
        quantity := item.quantity, price := item.price })
    let ev : OrderCreatedEvent :=
      { order_id := toString orderId, customer_id := data.customer_id,
        cart_id := data.cart_id, total_amount := initialTotal,
        items := data.items.map (fun item =>
          { product_sku := item.product_sku, quantity := item.quantity,
            price := item.price }) }
    ({ orders := st.orders ++ [newOrder]
       order_items := st.order_items ++ newItems
       processed := markMessageProcessed st.processed msg.id
         "stock-available" "order-service" "success" none
       nextOrderId := orderId + 1 },
     [OrdEvent.orderCreated ev],
     Ack.ack)

/-- Database errors raised by queries against columns missing from the
declared schemas. -/
inductive SqlError where
  | undefinedColumn (table column : String)
  | notNullViolation (table column : String)
deriving DecidableEq

/-- Failures of `PUT /orders/:orderId/cancel`. -/
inductive CancelError where
  | notFound
  | alreadyCancelled
  | internalError (e : SqlError)
deriving DecidableEq

/-- `PUT /orders/:orderId/cancel`, a single transaction: 404 when no order
has the id; 400 when the order's status is already `cancelled`; otherwise
the handler reads the order's items, sets the status to `cancelled`, and
then runs `SELECT cart_id FROM order_items WHERE order_id = $1 LIMIT 1`.
The `order_items` table has no `cart_id` column, so the database raises an
undefined-column error, the catch branch rolls the whole transaction back
(discarding the status update), and the endpoint answers 500 publishing
nothing.  The `ok` case is therefore unreachable; it is kept so the
intended success shape (committed state plus the `order.cancelled` event)
is part of the signature. -/
def cancelOrder (st : OrderState) (orderId : Nat) (reason : Option String) :
    Except CancelError (OrderState × OrderCancelledEvent) :=
  match st.orders.find? (fun o => o.id == orderId) with
  | none => Except.error CancelError.notFound
  | some o =>
    if o.status == "cancelled" then
      Except.error CancelError.alreadyCancelled
    else
      Except.error (CancelError.internalError
        (SqlError.undefinedColumn "order_items" "cart_id"))

/-- Failures of `POST /orders`. -/
inductive CreateOrderError where
  | cartNotFound
  | cartLocked
  | internalError (e : SqlError)
deriving DecidableEq

/-- `POST /orders`, a single transaction against the shared database: 404
when the customer has no cart with the given id.  The lock test reads
`cart.is_locked`, but the carts table's column is `cart_locked`, so the
read yields undefined (falsy) and the `cartLocked` rejection is
unreachable.  The insert then uses `cart.total_amount`, also not a column
of carts, so the NOT NULL constraint on `orders.total_amount` is violated,
the transaction rolls back and the endpoint answers 500; no cart or order
row is ever changed. -/
def createOrderEndpoint (cs : CartState) (os : OrderState)
    (customerId cartId : String) :
    Except CreateOrderError (CartState × OrderState × List OrdEvent) :=
  match cs.carts.find? (fun c => c.id == cartId && c.customer_id == customerId) with
  | none => Except.error CreateOrderError.cartNotFound
  | some _ => Except.error (CreateOrderError.internalError
      (SqlError.notNullViolation "orders" "total_amount"))

/-- The cart service's handler for `stock-available` messages: `UPDATE
orders SET status = $1 WHERE cart_id = $2` with status `confirmed`,
against the shared orders table.  No ledger check, no cart change. -/
def cartStockAvailableHandler (os : OrderState) (e : StockAvailableEvent) :
    OrderState :=
  { os with orders := os.orders.map (fun o =>
      if o.cart_id == e.cart_id then { o with status := "confirmed" } else o) }

/-! ## Notification service -/

/-- A row of the `notifications` table. -/
structure NotificationRow where
  recipient : String
  message : String
  channel : String
  status : String
deriving DecidableEq

/-- Durable state owned by the notification service. -/
structure NotifState where
  notifications : List NotificationRow
deriving DecidableEq

/-- The notification service's `order.created` handler: one email row and
one push row, both status `pending`.  It reads only the order id and
customer id of the payload. -/
def orderCreatedNotificationHandler (st : NotifState) (e : OrderCreatedEvent) :
    NotifState :=
  let text := "Your order #" ++ e.order_id ++ " has been created successfully"
  { notifications := st.notifications ++
      [{ recipient := e.customer_id, message := text, channel := "email",
         status := "pending" },
       { recipient := e.customer_id, message := text, channel := "push",
         status := "pending" }] }

/-- The notification service's `order.cancelled` handler. -/
def orderCancelledNotificationHandler (st : NotifState) (e : OrderCancelledEvent) :
    NotifState :=
  let text := "Your order #" ++ e.order_id ++ " has been cancelled. Reason: "
    ++ e.reason
  { notifications := st.notifications ++
      [{ recipient := e.customer_id, message := text, channel := "email",
         status := "pending" },
       { recipient := e.customer_id, message := text, channel := "push",
         status := "pending" }] }

/-- The notification service's `stock.rejected` handler. -/
def stockRejectedNotificationHandler (st : NotifState) (e : StockRejectedEvent) :
    NotifState :=
  let productDetails := String.intercalate "\n" (e.details.map (fun d =>
    "Product " ++ d.product_sku ++ ": Requested " ++ toString d.requested
      ++ ", Available " ++ toString d.available))
  { notifications := st.notifications ++
      [{ recipient := e.customer_id
         message := "Some items in your cart are out of stock:\n" ++ productDetails
         channel := "email", status := "pending" },
       { recipient := e.customer_id
         message := "Some items in your cart are out of stock. Please check your cart for details."
         channel := "push", status := "pending" }] }

/-! ## The system -/

/-- The durable state of the whole deployment. -/
structure SysState where
  cart : CartState
  inv : InvState
  ord : OrderState
  notif : NotifState
deriving DecidableEq

/-- Every state-bearing HTTP operation and message delivery of the
system. -/
inductive SysOp where
  | cartGet (customerId : String)
  | cartAddItem (customerId productSku : String) (quantity : Int)
  | cartRemoveItem (customerId productSku : String)
  | cartConvert (customerId : String)
  | cartStockRejected (e : StockRejectedEvent)
  | cartStockAvailable (e : StockAvailableEvent)
  | invOrderRequested (m : Msg OrderRequestedEvent)
  | invOrderCancelled (m : Msg OrderCancelledEvent)
  | invPut (sku : String) (quantity : Int)
  | ordStockAvailable (m : Msg StockAvailablePricedEvent)
  | ordCreate (customerId cartId : String)
  | ordCancel (orderId : Nat) (reason : Option String)
  | notifOrderCreated (e : OrderCreatedEvent)
  | notifOrderCancelled (e : OrderCancelledEvent)
  | notifStockRejected (e : StockRejectedEvent)
deriving DecidableEq

/-- One step of the system: apply the operation's handler to the state it
owns; a handler that fails rolls back, leaving the state unchanged. -/
def sysStep (s : SysState) : SysOp → SysState
  | SysOp.cartGet _ => s
  | SysOp.cartAddItem cid sku q =>
    match addItem s.cart cid sku q with
    | Except.ok r => { s with cart := r.1 }
    | Except.error _ => s
  | SysOp.cartRemoveItem cid sku =>
    match removeItem s.cart cid sku with
    | Except.ok r => { s with cart := r.1 }
    | Except.error _ => s
  | SysOp.cartConvert cid =>
    match convertToOrder s.cart cid with
    | Except.ok r => { s with cart := r.1 }
    | Except.error _ => s
  | SysOp.cartStockRejected e => { s with cart := stockRejectedHandler s.cart e }
  | SysOp.cartStockAvailable e =>
    { s with ord := cartStockAvailableHandler s.ord e }
  | SysOp.invOrderRequested m =>
    { s with inv := (orderRequestedHandler s.inv m).1 }
  | SysOp.invOrderCancelled m =>
    { s with inv := (orderCancelledHandler s.inv m).1 }
  | SysOp.invPut sku q => { s with inv := (putInventory s.inv sku q).1 }
  | SysOp.ordStockAvailable m =>
    { s with ord := (stockAvailableHandler s.ord m).1 }
  | SysOp.ordCreate cid cartId =>
    match createOrderEndpoint s.cart s.ord cid cartId with
    | Except.ok r => { s with cart := r.1, ord := r.2.1 }
    | Except.error _ => s
  | SysOp.ordCancel oid reason =>
    match cancelOrder s.ord oid reason with
    | Except.ok r => { s with ord := r.1 }
    | Except.error _ => s
  | SysOp.notifOrderCreated e =>
    { s with notif := orderCreatedNotificationHandler s.notif e }
  | SysOp.notifOrderCancelled e =>
    { s with notif := orderCancelledNotificationHandler s.notif e }
  | SysOp.notifStockRejected e =>
    { s with notif := stockRejectedNotificationHandler s.notif e }

/-- The operations whose handler writes the `inventory` table: the
order-cancelled restock handler and `PUT /inventory/:sku`. -/
def mutatesInventory : SysOp → Bool
  | SysOp.invOrderCancelled _ => true
  | SysOp.invPut _ _ => true
  | _ => false

/-- The total quantity the items of a cancelled order carry for a given
SKU (the amount the restock loop adds to each row of that SKU). -/
def cancelledQty : List ReqItem → String → Int
  | [], _ => 0
  | item :: rest, sku =>
    (if sku == item.product_sku then item.quantity else 0) + cancelledQty rest sku

/-- The cart state after one `POST /cart/items` call (a failed call leaves
the state unchanged). -/
def addItemState (st : CartState) (customerId productSku : String) (quantity : Int) :
    CartState :=
  match addItem st customerId productSku quantity with
  | Except.ok r => r.1
  | Except.error _ => st

/-- The cart state after a sequence of `POST /cart/items` calls for the
same customer and SKU. -/
def addItems (st : CartState) (customerId productSku : String) (qs : List Int) :
    CartState :=
  qs.foldl (fun s q => addItemState s customerId productSku q) st

/-- The customer's current unlocked cart is the cart with id `cartId` and
its line for `productSku` is exactly one row of quantity `s`. -/
def cartAccum (st : CartState) (customerId productSku cartId : String) (s : Int) :
    Prop :=
  (∃ cart, findUnlockedCart st customerId = some cart ∧ cart.id = cartId) ∧
  st.cart_items.filter
      (fun i => i.cart_id == cartId && i.product_sku == productSku)
    = [{ cart_id := cartId, product_sku := productSku, quantity := s }]

/-! ## Helper lemmas -/

theorem isMessageProcessed_markMessageProcessed
    (ledger : List ProcessedMessageRow)
    (messageId eventType serviceName status : String)
    (errorMessage : Option String) :
    isMessageProcessed
      (markMessageProcessed ledger messageId eventType serviceName status errorMessage)
      messageId serviceName = true := by
  unfold isMessageProcessed markMessageProcessed
  split
  · assumption
  · simp [List.any_append]

theorem orderRequestedHandler_inventory (st : InvState) (m : Msg OrderRequestedEvent) :
    (orderRequestedHandler st m).1.inventory = st.inventory := by
  unfold orderRequestedHandler
  split <;> rfl

theorem orderRequestedHandler_processed_noop (st : InvState) (m : Msg OrderRequestedEvent)
    (h : isMessageProcessed st.processed m.id "inventory-service" = true) :
    orderRequestedHandler st m = (st, [], Ack.ack) := by
  unfold orderRequestedHandler
  simp [h]

theorem orderRequestedHandler_marks (st : InvState) (m : Msg OrderRequestedEvent) :
    isMessageProcessed (orderRequestedHandler st m).1.processed m.id "inventory-service" = true := by
  unfold orderRequestedHandler
  split
  · assumption
  · exact isMessageProcessed_markMessageProcessed ..

theorem orderCancelledHandler_processed_noop (st : InvState) (m : Msg OrderCancelledEvent)
    (h : isMessageProcessed st.processed m.id "inventory-service" = true) :
    orderCancelledHandler st m = (st, [], Ack.ack) := by
  unfold orderCancelledHandler
  simp [h]

theorem stockAvailableHandler_processed_noop (st : OrderState) (m : Msg StockAvailablePricedEvent)
    (h : isMessageProcessed st.processed m.id "order-service" = true) :
    stockAvailableHandler st m = (st, [], Ack.ack) := by
  unfold stockAvailableHandler
  simp [h]

theorem stockAvailableHandler_marks (st : OrderState) (m : Msg StockAvailablePricedEvent) :
    isMessageProcessed (stockAvailableHandler st m).1.processed m.id "order-service" = true := by
  unfold stockAvailableHandler
  split
  · assumption
  · exact isMessageProcessed_markMessageProcessed ..

/-- `cancelOrder` never reaches its success branch: the cart-id lookup
always raises. -/
theorem cancelOrder_ne_ok (st : OrderState) (orderId : Nat) (reason : Option String)
    (r : OrderState × OrderCancelledEvent) :
    cancelOrder st orderId reason ≠ Except.ok r := by
  unfold cancelOrder
  split
  · exact fun h => by cases h
  · split
    · exact fun h => by cases h
    · exact fun h => by cases h

theorem restock_eq_map (items : List ReqItem) (inv : List InventoryRow) :
    restock inv items = inv.map (fun r =>
      { r with quantity := r.quantity + cancelledQty items r.product_sku }) := by
  induction items generalizing inv with
  | nil =>
    simp [restock, cancelledQty]
  | cons item rest ih =>
    show restock (inv.map _) rest = _
    rw [ih, List.map_map]
    apply List.map_congr_left
    intro r _
    by_cases h : r.product_sku == item.product_sku
    · simp [Function.comp, h, cancelledQty, add_assoc]
    · simp only [Function.comp, h, Bool.false_eq_true, if_false, cancelledQty]
      have h2 : (r.product_sku == item.product_sku) = false := by
        simpa using h
      simp [h2]

theorem isMessageProcessed_mark_other
    (ledger : List ProcessedMessageRow)
    (id1 id2 eventType service1 service2 status : String)
    (errorMessage : Option String) (h : id2 ≠ id1) :
    isMessageProcessed
      (markMessageProcessed ledger id1 eventType service1 status errorMessage)
      id2 service2 = isMessageProcessed ledger id2 service2 := by
  unfold isMessageProcessed markMessageProcessed
  split
  · rfl
  · simp only [List.any_append, List.any_cons, List.any_nil, Bool.or_false]
    have hb : (id1 == id2) = false := by
      simp only [beq_eq_false_iff_ne, ne_eq]
      exact fun heq => h heq.symm
    simp [hb]

theorem inventoryChecks_all_iff (inv : List InventoryRow) (items : List ReqItem) :
    ((inventoryChecks inv items).all (fun c => c.sufficient) = true)
      ↔ ∀ item ∈ items, item.quantity ≤ availableQuantity inv item.product_sku := by
  unfold inventoryChecks
  simp [List.all_map, Function.comp, ge_iff_le]

theorem createOrderEndpoint_ne_ok (cs : CartState) (os : OrderState)
    (customerId cartId : String)
    (r : CartState × OrderState × List OrdEvent) :
    createOrderEndpoint cs os customerId cartId ≠ Except.ok r := by
  unfold createOrderEndpoint
  split
  · exact fun h => by cases h
  · exact fun h => by cases h

theorem foldl_price_total (items : List PricedItem) :
    items.foldl (fun sum item => sum + item.price * item.quantity) 0
      = (items.map (fun item => item.price * item.quantity)).sum := by
  rw [List.sum_eq_foldl, List.foldl_map]

theorem removeItem_carts (st : CartState) (customerId productSku : String)
    (r : CartState × CartRow × List CartItemRow)
    (h : removeItem st customerId productSku = Except.ok r) :
    r.1.carts = st.carts := by
  unfold removeItem at h
  split at h
  · cases h
  · cases h
    rfl

theorem addItem_carts_subset (st : CartState) (customerId productSku : String)
    (quantity : Int) (r : CartState × CartRow × List CartItemRow)
    (h : addItem st customerId productSku quantity = Except.ok r) :
    ∀ c ∈ st.carts, c ∈ r.1.carts := by
  unfold addItem at h
  split at h
  · cases h
  · split at h
    · cases h
      exact fun c hc => hc
    · cases h
      exact fun c hc => List.mem_append_left _ hc

theorem convertToOrder_carts (st : CartState) (customerId : String)
    (r : CartState × OrderRequestedEvent)
    (h : convertToOrder st customerId = Except.ok r) :
    ∃ lockedId, r.1.carts = st.carts.map (fun c =>
      if c.id == lockedId then { c with cart_locked := true } else c) := by
  unfold convertToOrder at h
  cases hf : findUnlockedCart st customerId with
  | none => rw [hf] at h; cases h
  | some cart =>
    rw [hf] at h
    dsimp only at h
    by_cases hemp : (itemsOfCart st cart.id).isEmpty = true
    · rw [if_pos hemp] at h; cases h
    · rw [if_neg hemp] at h
      cases h
      exact ⟨cart.id, rfl⟩

theorem addItem_valid_cond (productSku : String) (q : Int)
    (hsku : productSku ≠ "") (hq : 1 ≤ q) :
    (productSku == "" || q == 0 || decide (q < 1)) = false := by
  simp only [Bool.or_eq_false_iff, beq_eq_false_iff_ne, ne_eq,
    decide_eq_false_iff_not, not_lt]
  exact ⟨⟨hsku, by omega⟩, hq⟩

theorem find?_append_of_none {α : Type} (p : α → Bool) (l1 l2 : List α)
    (h : l1.find? p = none) : (l1 ++ l2).find? p = l2.find? p := by
  induction l1 with
  | nil => rfl
  | cons a rest ih =>
    by_cases hp : p a = true
    · rw [List.find?_cons_of_pos _ hp] at h
      cases h
    · rw [List.find?_cons_of_neg _ hp] at h
      rw [List.cons_append, List.find?_cons_of_neg _ hp]
      exact ih h

theorem cartAccum_step (st : CartState) (customerId productSku cartId : String)
    (s q : Int) (hsku : productSku ≠ "") (hq : 1 ≤ q)
    (hacc : cartAccum st customerId productSku cartId s) :
    cartAccum (addItemState st customerId productSku q) customerId productSku
      cartId (s + q) := by
  obtain ⟨⟨cart, hfind, hid⟩, hline⟩ := hacc
  subst hid
  have hrow : ({ cart_id := cart.id, product_sku := productSku, quantity := s } : CartItemRow)
      ∈ st.cart_items.filter (fun i => i.cart_id == cart.id && i.product_sku == productSku) := by
    rw [hline]; exact List.mem_singleton.mpr rfl
  have hmem := (List.mem_filter.mp hrow).1
  have hprop := (List.mem_filter.mp hrow).2
  have hany : (st.cart_items.any
      (fun i => i.cart_id == cart.id && i.product_sku == productSku)) = true :=
    List.any_eq_true.mpr ⟨_, hmem, hprop⟩
  unfold addItemState addItem
  rw [if_neg (by rw [addItem_valid_cond productSku q hsku hq]; exact Bool.false_ne_true)]
  rw [hfind]
  dsimp only
  rw [if_pos hany]
  constructor
  · exact ⟨cart, hfind, rfl⟩
  · show (st.cart_items.map _).filter _ = _
    rw [List.filter_map]
    have hcongr : st.cart_items.filter
        ((fun i => i.cart_id == cart.id && i.product_sku == productSku) ∘
          (fun i => if i.cart_id == cart.id && i.product_sku == productSku then
            { i with quantity := i.quantity + q } else i))
        = st.cart_items.filter
            (fun i => i.cart_id == cart.id && i.product_sku == productSku) := by
      apply List.filter_congr
      intro i _
      by_cases hp : (i.cart_id == cart.id && i.product_sku == productSku) = true
      · simp only [Function.comp, hp, if_true]
      · simp only [Function.comp, if_neg hp]
    rw [hcongr, hline]
    simp [hprop]

theorem cartAccum_base (st : CartState) (customerId productSku : String) (q : Int)
    (hsku : productSku ≠ "") (hq : 1 ≤ q)
    (hnone : findUnlockedCart st customerId = none)
    (hfresh : ∀ i ∈ st.cart_items, i.cart_id ≠ newCartId st.nextCartId) :
    cartAccum (addItemState st customerId productSku q) customerId productSku
      (newCartId st.nextCartId) q := by
  have hanyf : (st.cart_items.any
      (fun i => i.cart_id == newCartId st.nextCartId && i.product_sku == productSku))
      = false := by
    rw [List.any_eq_false]
    intro i hi
    simp only [Bool.and_eq_true, beq_iff_eq, not_and]
    exact fun hcid => absurd hcid (hfresh i hi)
  have hfil : st.cart_items.filter
      (fun i => i.cart_id == newCartId st.nextCartId && i.product_sku == productSku)
      = [] := by
    rw [List.filter_eq_nil_iff]
    intro i hi
    simp only [Bool.and_eq_true, beq_iff_eq, not_and]
    exact fun hcid => absurd hcid (hfresh i hi)
  unfold addItemState addItem
  rw [if_neg (by rw [addItem_valid_cond productSku q hsku hq]; exact Bool.false_ne_true)]
  rw [hnone]
  dsimp only
  rw [if_neg (by rw [hanyf]; exact Bool.false_ne_true)]
  refine ⟨⟨⟨newCartId st.nextCartId, customerId, false, "active"⟩, ?_, rfl⟩, ?_⟩
  · show List.find? _
      (st.carts ++ [⟨newCartId st.nextCartId, customerId, false, "active"⟩]) = _
    rw [find?_append_of_none _ _ _ hnone]
    simp [List.find?]
  · show List.filter _
      (st.cart_items ++ [⟨newCartId st.nextCartId, productSku, q⟩]) = _
    rw [List.filter_append, hfil]
    simp

theorem cartAccum_fold (qs : List Int) (st : CartState)
    (customerId productSku cartId : String) (s : Int)
    (hsku : productSku ≠ "") (hqs : ∀ x ∈ qs, 1 ≤ x)
    (hacc : cartAccum st customerId productSku cartId s) :
    cartAccum (addItems st customerId productSku qs) customerId productSku cartId
      (s + qs.sum) := by
  induction qs generalizing st s with
  | nil => simpa [addItems] using hacc
  | cons q rest ih =>
    have h1 := cartAccum_step st customerId productSku cartId s q hsku
      (hqs q (by simp)) hacc
    have h2 := ih (addItemState st customerId productSku q) (s + q)
      (fun x hx => hqs x (by simp [hx])) h1
    have hs : s + q + rest.sum = s + (q :: rest).sum := by
      rw [List.sum_cons]; ring
    rw [← hs]
    exact h2

theorem orderRequestedHandler_processed_other
    (st : InvState) (mr : Msg OrderRequestedEvent) (id service : String)
    (h : id ≠ mr.id) :
    isMessageProcessed (orderRequestedHandler st mr).1.processed id service
      = isMessageProcessed st.processed id service := by
  unfold orderRequestedHandler
  split
  · rfl
  · exact isMessageProcessed_mark_other _ _ _ _ _ _ _ _ h

theorem orderCancelledHandler_restocks (st : InvState) (m : Msg OrderCancelledEvent)
    (hnew : isMessageProcessed st.processed m.id "inventory-service" = false) :
    (orderCancelledHandler st m).1.inventory = st.inventory.map (fun r =>
      { r with quantity := r.quantity + cancelledQty m.data.items r.product_sku }) := by
  unfold orderCancelledHandler
  simp [hnew, restock_eq_map]

theorem pricedItem_eta_map (items : List PricedItem) :
    items.map (fun item =>
      ({ product_sku := item.product_sku, quantity := item.quantity,
         price := item.price } : PricedItem)) = items := by
  induction items with
  | nil => rfl
  | cons a rest ih => simp [ih]

/-! ## Claim theorems -/

/-- C1: every consumer that follows the ledger protocol (the inventory
service's order-requested and order-cancelled handlers and the order
service's stock-available handler) leaves its state unchanged, publishes
nothing and acknowledges when the message id is already recorded for its
service; consequently a second delivery of the same checkout-requested
message publishes no further stock event, and a second delivery of the
same stock-available message creates no further order row. -/
theorem ledger_dedupe :
    (∀ (st : InvState) (m : Msg OrderRequestedEvent),
      isMessageProcessed st.processed m.id "inventory-service" = true →
      orderRequestedHandler st m = (st, [], Ack.ack)) ∧
    (∀ (st : InvState) (m : Msg OrderCancelledEvent),
      isMessageProcessed st.processed m.id "inventory-service" = true →
      orderCancelledHandler st m = (st, [], Ack.ack)) ∧
    (∀ (st : OrderState) (m : Msg StockAvailablePricedEvent),
      isMessageProcessed st.processed m.id "order-service" = true →
      stockAvailableHandler st m = (st, [], Ack.ack)) ∧
    (∀ (st : InvState) (m : Msg OrderRequestedEvent),
      (orderRequestedHandler (orderRequestedHandler st m).1 m).2.1 = []) ∧
    (∀ (st : OrderState) (m : Msg StockAvailablePricedEvent),
      (stockAvailableHandler (stockAvailableHandler st m).1 m).1.orders
        = (stockAvailableHandler st m).1.orders) := by
  refine ⟨orderRequestedHandler_processed_noop, orderCancelledHandler_processed_noop,
    stockAvailableHandler_processed_noop, ?_, ?_⟩
  · intro st m
    rw [orderRequestedHandler_processed_noop _ m (orderRequestedHandler_marks st m)]
  · intro st m
    rw [stockAvailableHandler_processed_noop _ m (stockAvailableHandler_marks st m)]

/-- Witness for C1 at concrete ledger states. -/
theorem ledger_dedupe_witness :
    orderRequestedHandler
      ⟨[], [⟨"m1", "order-requested", "inventory-service", "success", none⟩]⟩
      ⟨"m1", ⟨"c1", "u1", [⟨"LAP-001", 2⟩]⟩⟩
      = (⟨[], [⟨"m1", "order-requested", "inventory-service", "success", none⟩]⟩,
         [], Ack.ack) ∧
    orderCancelledHandler
      ⟨[], [⟨"m2", "order-cancelled", "inventory-service", "success", none⟩]⟩
      ⟨"m2", ⟨"1", "u1", "c1", "cancel", [⟨"LAP-001", 2⟩]⟩⟩
      = (⟨[], [⟨"m2", "order-cancelled", "inventory-service", "success", none⟩]⟩,
         [], Ack.ack) ∧
    stockAvailableHandler
      ⟨[], [], [⟨"m3", "stock-available", "order-service", "success", none⟩], 1⟩
      ⟨"m3", ⟨"c1", "u1", [⟨"LAP-001", 2, 500⟩]⟩⟩
      = (⟨[], [], [⟨"m3", "stock-available", "order-service", "success", none⟩], 1⟩,
         [], Ack.ack) :=
  ⟨ledger_dedupe.1 _ _ (by decide),
   ledger_dedupe.2.1 _ _ (by decide),
   ledger_dedupe.2.2.1 _ _ (by decide)⟩

/-- C2: on a fresh checkout-requested message the inventory checker reads
each requested line's current quantity, judges the line sufficient iff
requested is at most available, and publishes exactly one stock-available
event (cart id, customer id, per-line sku/quantity/available) when every
line is sufficient, and otherwise exactly one stock-rejected event with
the same ids, reason insufficient_stock, and one
(sku, requested, available) detail per requested line. -/
theorem availability_decision (st : InvState) (m : Msg OrderRequestedEvent)
    (hnew : isMessageProcessed st.processed m.id "inventory-service" = false) :
    ((∀ item ∈ m.data.items,
        item.quantity ≤ availableQuantity st.inventory item.product_sku) →
      (orderRequestedHandler st m).2.1 =
        [InvEvent.inventoryStatus
           { cart_id := m.data.cart_id, customer_id := m.data.customer_id,
             status := "sufficient",
             details := m.data.items.map (fun item =>
               { product_sku := item.product_sku, requested := item.quantity,
                 available := availableQuantity st.inventory item.product_sku }) },
         InvEvent.stockAvailable
           { cart_id := m.data.cart_id, customer_id := m.data.customer_id,
             items := m.data.items.map (fun item =>
               { product_sku := item.product_sku, quantity := item.quantity,
                 available := availableQuantity st.inventory item.product_sku }) }]) ∧
    ((¬ ∀ item ∈ m.data.items,
        item.quantity ≤ availableQuantity st.inventory item.product_sku) →
      (orderRequestedHandler st m).2.1 =
        [InvEvent.inventoryStatus
           { cart_id := m.data.cart_id, customer_id := m.data.customer_id,
             status := "insufficient",
             details := m.data.items.map (fun item =>
               { product_sku := item.product_sku, requested := item.quantity,
                 available := availableQuantity st.inventory item.product_sku }) },
         InvEvent.stockRejected
           { cart_id := m.data.cart_id, customer_id := m.data.customer_id,
             reason := "insufficient_stock",
             details := m.data.items.map (fun item =>
               { product_sku := item.product_sku, requested := item.quantity,
                 available := availableQuantity st.inventory item.product_sku }) }]) := by
  constructor
  · intro hall
    have hb : ((inventoryChecks st.inventory m.data.items).all
        (fun c => c.sufficient)) = true :=
      (inventoryChecks_all_iff _ _).mpr hall
    unfold orderRequestedHandler
    rw [if_neg (by rw [hnew]; exact Bool.false_ne_true)]
    dsimp only
    rw [hb]
    simp [inventoryChecks, List.map_map, Function.comp_def]
  · intro hnot
    have hb : ((inventoryChecks st.inventory m.data.items).all
        (fun c => c.sufficient)) = false := by
      cases hAll : ((inventoryChecks st.inventory m.data.items).all
          (fun c => c.sufficient)) with
      | false => rfl
      | true => exact absurd ((inventoryChecks_all_iff _ _).mp hAll) hnot
    unfold orderRequestedHandler
    rw [if_neg (by rw [hnew]; exact Bool.false_ne_true)]
    dsimp only
    rw [hb]
    simp [inventoryChecks, List.map_map, Function.comp_def]

/-- Witness for C2: a sufficient cart and an insufficient cart against the
same stock level. -/
theorem availability_decision_witness :
    (orderRequestedHandler ⟨[⟨"LAP-001", 10, 5, 50⟩], []⟩
        ⟨"m1", ⟨"c1", "u1", [⟨"LAP-001", 2⟩]⟩⟩).2.1 =
      [InvEvent.inventoryStatus
         ⟨"c1", "u1", "sufficient", [⟨"LAP-001", 2, 10⟩]⟩,
       InvEvent.stockAvailable ⟨"c1", "u1", [⟨"LAP-001", 2, 10⟩]⟩] ∧
    (orderRequestedHandler ⟨[⟨"LAP-001", 10, 5, 50⟩], []⟩
        ⟨"m2", ⟨"c1", "u1", [⟨"LAP-001", 20⟩]⟩⟩).2.1 =
      [InvEvent.inventoryStatus
         ⟨"c1", "u1", "insufficient", [⟨"LAP-001", 20, 10⟩]⟩,
       InvEvent.stockRejected
         ⟨"c1", "u1", "insufficient_stock", [⟨"LAP-001", 20, 10⟩]⟩] := by
  constructor
  · rw [(availability_decision ⟨[⟨"LAP-001", 10, 5, 50⟩], []⟩
      ⟨"m1", ⟨"c1", "u1", [⟨"LAP-001", 2⟩]⟩⟩ (by decide)).1 (by decide)]
    decide
  · rw [(availability_decision ⟨[⟨"LAP-001", 10, 5, 50⟩], []⟩
      ⟨"m2", ⟨"c1", "u1", [⟨"LAP-001", 20⟩]⟩⟩ (by decide)).2 (by decide)]
    decide

/-- C3: convert_to_order in one transaction: NotFound when the customer
has no unlocked cart (in particular when the only cart is already locked —
it is never silently re-locked), EmptyCart when the unlocked cart has no
items, and otherwise it sets the cart's locked flag and produces the
checkout-requested event (cart id, customer id, cart items) in the same
atomic step, leaving the items untouched. -/
theorem convert_to_order_spec (st : CartState) (customerId : String) :
    (findUnlockedCart st customerId = none →
      convertToOrder st customerId = Except.error ConvertError.notFound) ∧
    ((∀ c ∈ st.carts, c.customer_id = customerId → c.cart_locked = true) →
      convertToOrder st customerId = Except.error ConvertError.notFound) ∧
    (∀ cart, findUnlockedCart st customerId = some cart →
      itemsOfCart st cart.id = [] →
      convertToOrder st customerId = Except.error ConvertError.emptyCart) ∧
    (∀ cart, findUnlockedCart st customerId = some cart →
      itemsOfCart st cart.id ≠ [] →
      ∃ st1, convertToOrder st customerId = Except.ok (st1,
          { cart_id := cart.id, customer_id := cart.customer_id,
            items := (itemsOfCart st cart.id).map (fun i =>
              { product_sku := i.product_sku, quantity := i.quantity }) }) ∧
        (∀ c ∈ st1.carts, c.id = cart.id → c.cart_locked = true) ∧
        st1.cart_items = st.cart_items) := by
  refine ⟨?_, ?_, ?_, ?_⟩
  · intro h
    simp [convertToOrder, h]
  · intro hlock
    have hnone : findUnlockedCart st customerId = none := by
      unfold findUnlockedCart
      rw [List.find?_eq_none]
      intro c hc hpc
      rw [Bool.and_eq_true, beq_iff_eq, Bool.not_eq_true'] at hpc
      exact absurd (hlock c hc hpc.1)
        (by rw [hpc.2]; exact Bool.false_ne_true)
    simp [convertToOrder, hnone]
  · intro cart hf hempty
    simp [convertToOrder, hf, hempty]
  · intro cart hf hne
    have hne2 : (itemsOfCart st cart.id).isEmpty = false := by
      cases hE : (itemsOfCart st cart.id).isEmpty
      · rfl
      · exact absurd (List.isEmpty_iff.mp hE) hne
    refine ⟨{ st with carts := st.carts.map (fun c =>
        if c.id == cart.id then { c with cart_locked := true } else c) },
      ?_, ?_, rfl⟩
    · simp [convertToOrder, hf, hne2]
    · intro c hc hcid
      obtain ⟨c0, hc0, hceq⟩ := List.mem_map.mp hc
      by_cases h0 : (c0.id == cart.id) = true
      · rw [if_pos h0] at hceq
        rw [← hceq]
      · rw [if_neg h0] at hceq
        subst hceq
        exact absurd (beq_iff_eq.mpr hcid) h0

/-- Witness for C3: no cart, a locked-only cart, an empty cart, and a
non-empty cart. -/
theorem convert_to_order_spec_witness :
    convertToOrder ⟨[], [], 0⟩ "u1" = Except.error ConvertError.notFound ∧
    convertToOrder ⟨[⟨"cart-0", "u1", true, "processing"⟩], [], 1⟩ "u1"
      = Except.error ConvertError.notFound ∧
    convertToOrder ⟨[⟨"cart-0", "u1", false, "active"⟩], [], 1⟩ "u1"
      = Except.error ConvertError.emptyCart ∧
    ∃ st1, convertToOrder
        ⟨[⟨"cart-0", "u1", false, "active"⟩], [⟨"cart-0", "LAP-001", 2⟩], 1⟩ "u1"
        = Except.ok (st1, ⟨"cart-0", "u1", [⟨"LAP-001", 2⟩]⟩) ∧
      (∀ c ∈ st1.carts, c.id = "cart-0" → c.cart_locked = true) ∧
      st1.cart_items = [⟨"cart-0", "LAP-001", 2⟩] :=
  ⟨(convert_to_order_spec ⟨[], [], 0⟩ "u1").1 (by decide),
   (convert_to_order_spec _ "u1").2.1 (by decide),
   (convert_to_order_spec _ "u1").2.2.1 ⟨"cart-0", "u1", false, "active"⟩
     (by decide) (by decide),
   (convert_to_order_spec _ "u1").2.2.2 ⟨"cart-0", "u1", false, "active"⟩
     (by decide) (by decide)⟩

/-- C4: on a fresh stock-available message the order service inserts
exactly one order row — with status string `created`, not the `confirmed`
the specification states — whose total is the sum of price times quantity
over the event's items, one order_items row per event item, and publishes
one order.created event with that order id, customer id, cart id, items
and total.  Every row this handler adds has status `created`, which is the
divergence from the claim. -/
theorem stock_available_creates_order (st : OrderState)
    (m : Msg StockAvailablePricedEvent)
    (hnew : isMessageProcessed st.processed m.id "order-service" = false) :
    (stockAvailableHandler st m).1.orders = st.orders ++
      [{ id := st.nextOrderId, customer_id := m.data.customer_id,
         cart_id := m.data.cart_id, status := "created",
         total_amount :=
           (m.data.items.map (fun item => item.price * item.quantity)).sum }] ∧
    (stockAvailableHandler st m).1.order_items = st.order_items ++
      m.data.items.map (fun item =>
        { order_id := st.nextOrderId, product_sku := item.product_sku,
          quantity := item.quantity, price := item.price }) ∧
    (stockAvailableHandler st m).2.1 =
      [OrdEvent.orderCreated
         { order_id := toString st.nextOrderId,
           customer_id := m.data.customer_id, cart_id := m.data.cart_id,
           total_amount :=
             (m.data.items.map (fun item => item.price * item.quantity)).sum,
           items := m.data.items }] ∧
    (∀ o ∈ (stockAvailableHandler st m).1.orders, o ∉ st.orders →
      o.status = "created") := by
  have h1 : (stockAvailableHandler st m).1.orders = st.orders ++
      [{ id := st.nextOrderId, customer_id := m.data.customer_id,
         cart_id := m.data.cart_id, status := "created",
         total_amount :=
           (m.data.items.map (fun item => item.price * item.quantity)).sum }] := by
    unfold stockAvailableHandler
    rw [if_neg (by rw [hnew]; exact Bool.false_ne_true)]
    dsimp only
    rw [foldl_price_total]
  refine ⟨h1, ?_, ?_, ?_⟩
  · unfold stockAvailableHandler
    rw [if_neg (by rw [hnew]; exact Bool.false_ne_true)]
  · unfold stockAvailableHandler
    rw [if_neg (by rw [hnew]; exact Bool.false_ne_true)]
    dsimp only
    rw [foldl_price_total, pricedItem_eta_map]
  · intro o ho hno
    rw [h1] at ho
    rcases List.mem_append.mp ho with h | h
    · exact absurd h hno
    · rw [List.mem_singleton.mp h]

/-- Witness for C4: the handler at a concrete fresh message; the inserted
row carries status `created` and total 2 times 500. -/
theorem stock_available_creates_order_witness :
    (stockAvailableHandler ⟨[], [], [], 1⟩
        ⟨"m1", ⟨"c1", "u1", [⟨"LAP-001", 2, 500⟩]⟩⟩).1.orders
      = [⟨1, "u1", "c1", "created", 1000⟩] := by
  rw [(stock_available_creates_order ⟨[], [], [], 1⟩
    ⟨"m1", ⟨"c1", "u1", [⟨"LAP-001", 2, 500⟩]⟩⟩ (by decide)).1]
  decide

/-- C5 counterexample: with LAP-001 at 10 units, processing the
checkout-requested event of an order for 2 units (the availability check,
which never decrements) and then the matching order-cancelled event leaves
the SKU at 12 units, not at its pre-order value 10 — cancellation adds the
cancelled quantity instead of restoring the pre-order quantity. -/
theorem cancel_restock_counterexample :
    availableQuantity
        ((orderCancelledHandler
            ((orderRequestedHandler
                ⟨[⟨"LAP-001", 10, 5, 50⟩], []⟩
                ⟨"m1", ⟨"c1", "u1", [⟨"LAP-001", 2⟩]⟩⟩).1)
            ⟨"m2", ⟨"1", "u1", "c1", "customer-request",
              [⟨"LAP-001", 2⟩]⟩⟩).1).inventory
        "LAP-001" = 12 ∧
    availableQuantity
        ((⟨[⟨"LAP-001", 10, 5, 50⟩], []⟩ : InvState)).inventory "LAP-001" = 10 ∧
    availableQuantity
        ((orderCancelledHandler
            ((orderRequestedHandler
                ⟨[⟨"LAP-001", 10, 5, 50⟩], []⟩
                ⟨"m1", ⟨"c1", "u1", [⟨"LAP-001", 2⟩]⟩⟩).1)
            ⟨"m2", ⟨"1", "u1", "c1", "customer-request",
              [⟨"LAP-001", 2⟩]⟩⟩).1).inventory
        "LAP-001"
      ≠ availableQuantity
          ((⟨[⟨"LAP-001", 10, 5, 50⟩], []⟩ : InvState)).inventory "LAP-001" := by
  decide

/-- C5 amended: on a fresh order-cancelled message the restock handler
adds to every inventory row exactly the quantity the event's items carry
for its SKU, so after a checkout availability check (which leaves stock
untouched) followed by the cancellation, every SKU holds its pre-order
quantity PLUS the cancelled quantity — not its pre-order quantity. -/
theorem cancel_restock_adds (st : InvState) (m : Msg OrderCancelledEvent)
    (hnew : isMessageProcessed st.processed m.id "inventory-service" = false) :
    (orderCancelledHandler st m).1.inventory = st.inventory.map (fun r =>
      { r with quantity := r.quantity + cancelledQty m.data.items r.product_sku }) ∧
    (∀ (mreq : Msg OrderRequestedEvent), mreq.id ≠ m.id →
      (orderCancelledHandler (orderRequestedHandler st mreq).1 m).1.inventory
        = st.inventory.map (fun r =>
            { r with
              quantity := r.quantity + cancelledQty m.data.items r.product_sku })) := by
  refine ⟨orderCancelledHandler_restocks st m hnew, ?_⟩
  intro mreq hid
  have hnew2 : isMessageProcessed (orderRequestedHandler st mreq).1.processed
      m.id "inventory-service" = false := by
    rw [orderRequestedHandler_processed_other st mreq m.id "inventory-service"
      (Ne.symm hid)]
    exact hnew
  rw [orderCancelledHandler_restocks _ m hnew2, orderRequestedHandler_inventory]

/-- Witness for C5 amended, on the counterexample scenario. -/
theorem cancel_restock_adds_witness :
    (orderCancelledHandler
        ⟨[⟨"LAP-001", 10, 5, 50⟩], []⟩
        ⟨"m2", ⟨"1", "u1", "c1", "customer-request",
          [⟨"LAP-001", 2⟩]⟩⟩).1.inventory
      = [⟨"LAP-001", 12, 5, 50⟩] ∧
    (orderCancelledHandler
        (orderRequestedHandler ⟨[⟨"LAP-001", 10, 5, 50⟩], []⟩
          ⟨"m1", ⟨"c1", "u1", [⟨"LAP-001", 2⟩]⟩⟩).1
        ⟨"m2", ⟨"1", "u1", "c1", "customer-request",
          [⟨"LAP-001", 2⟩]⟩⟩).1.inventory
      = [⟨"LAP-001", 12, 5, 50⟩] := by
  constructor
  · rw [(cancel_restock_adds ⟨[⟨"LAP-001", 10, 5, 50⟩], []⟩
      ⟨"m2", ⟨"1", "u1", "c1", "customer-request", [⟨"LAP-001", 2⟩]⟩⟩
      (by decide)).1]
    decide
  · rw [(cancel_restock_adds ⟨[⟨"LAP-001", 10, 5, 50⟩], []⟩
      ⟨"m2", ⟨"1", "u1", "c1", "customer-request", [⟨"LAP-001", 2⟩]⟩⟩
      (by decide)).2 ⟨"m1", ⟨"c1", "u1", [⟨"LAP-001", 2⟩]⟩⟩ (by decide)]
    decide

/-- C6: the cart locked flag is monotonic across every operation and
event handler of the system: a cart that is locked before a step is still
present and locked after it.  In particular the stock-rejected handler
only changes the status column, and the order-cancellation endpoint never
reaches its cart-unlock statement, because the cart-id lookup that guards
it reads a column `order_items` does not have and so aborts the
transaction. -/
theorem cart_locked_monotonic (s : SysState) (op : SysOp) (c : CartRow)
    (hmem : c ∈ s.cart.carts) (hlock : c.cart_locked = true) :
    ∃ c1 ∈ (sysStep s op).cart.carts, c1.id = c.id ∧ c1.cart_locked = true := by
  cases op with
  | cartGet cid => exact ⟨c, hmem, rfl, hlock⟩
  | cartAddItem cid sku q =>
    cases h : addItem s.cart cid sku q with
    | ok r =>
      simp only [sysStep, h]
      exact ⟨c, addItem_carts_subset _ _ _ _ _ h c hmem, rfl, hlock⟩
    | error e =>
      simp only [sysStep, h]
      exact ⟨c, hmem, rfl, hlock⟩
  | cartRemoveItem cid sku =>
    cases h : removeItem s.cart cid sku with
    | ok r =>
      simp only [sysStep, h]
      rw [removeItem_carts _ _ _ _ h]
      exact ⟨c, hmem, rfl, hlock⟩
    | error e =>
      simp only [sysStep, h]
      exact ⟨c, hmem, rfl, hlock⟩
  | cartConvert cid =>
    cases h : convertToOrder s.cart cid with
    | ok r =>
      obtain ⟨lockedId, hc⟩ := convertToOrder_carts _ _ _ h
      have hmm : (if (c.id == lockedId) = true then
          { c with cart_locked := true } else c) ∈ r.1.carts := by
        rw [hc]
        exact List.mem_map_of_mem _ hmem
      simp only [sysStep, h]
      by_cases hcl : (c.id == lockedId) = true
      · rw [if_pos hcl] at hmm
        exact ⟨_, hmm, rfl, rfl⟩
      · rw [if_neg hcl] at hmm
        exact ⟨c, hmm, rfl, hlock⟩
    | error e =>
      simp only [sysStep, h]
      exact ⟨c, hmem, rfl, hlock⟩
  | cartStockRejected e =>
    have hmm : (if (c.id == e.cart_id) = true then
        { c with status := "stock-unavailable" } else c)
        ∈ (stockRejectedHandler s.cart e).carts :=
      List.mem_map_of_mem _ hmem
    by_cases hcl : (c.id == e.cart_id) = true
    · rw [if_pos hcl] at hmm
      exact ⟨_, hmm, rfl, hlock⟩
    · rw [if_neg hcl] at hmm
      exact ⟨c, hmm, rfl, hlock⟩
  | cartStockAvailable e => exact ⟨c, hmem, rfl, hlock⟩
  | invOrderRequested m => exact ⟨c, hmem, rfl, hlock⟩
  | invOrderCancelled m => exact ⟨c, hmem, rfl, hlock⟩
  | invPut sku q => exact ⟨c, hmem, rfl, hlock⟩
  | ordStockAvailable m => exact ⟨c, hmem, rfl, hlock⟩
  | ordCreate cid cartId =>
    cases h : createOrderEndpoint s.cart s.ord cid cartId with
    | ok r => exact absurd h (createOrderEndpoint_ne_ok _ _ _ _ r)
    | error e =>
      simp only [sysStep, h]
      exact ⟨c, hmem, rfl, hlock⟩
  | ordCancel oid reason =>
    cases h : cancelOrder s.ord oid reason with
    | ok r => exact absurd h (cancelOrder_ne_ok _ _ _ r)
    | error e =>
      simp only [sysStep, h]
      exact ⟨c, hmem, rfl, hlock⟩
  | notifOrderCreated e => exact ⟨c, hmem, rfl, hlock⟩
  | notifOrderCancelled e => exact ⟨c, hmem, rfl, hlock⟩
  | notifStockRejected e => exact ⟨c, hmem, rfl, hlock⟩

/-- Witness for C6: a locked cart survives an order-cancellation step and
a stock-rejected step locked. -/
theorem cart_locked_monotonic_witness :
    (∃ c1 ∈ (sysStep
        ⟨⟨[⟨"cart-0", "u1", true, "processing"⟩], [], 1⟩, ⟨[], []⟩,
          ⟨[⟨1, "u1", "cart-0", "created", 1000⟩], [], [], 2⟩, ⟨[]⟩⟩
        (SysOp.ordCancel 1 none)).cart.carts,
      c1.id = "cart-0" ∧ c1.cart_locked = true) ∧
    (∃ c1 ∈ (sysStep
        ⟨⟨[⟨"cart-0", "u1", true, "processing"⟩], [], 1⟩, ⟨[], []⟩,
          ⟨[], [], [], 1⟩, ⟨[]⟩⟩
        (SysOp.cartStockRejected
          ⟨"cart-0", "u1", "insufficient_stock", [⟨"LAP-001", 20, 10⟩]⟩)).cart.carts,
      c1.id = "cart-0" ∧ c1.cart_locked = true) :=
  ⟨cart_locked_monotonic _ _ ⟨"cart-0", "u1", true, "processing"⟩
     (by decide) (by decide),
   cart_locked_monotonic _ _ ⟨"cart-0", "u1", true, "processing"⟩
     (by decide) (by decide)⟩

/-- C7: cancel_order answers NotFound when no order has the id and
AlreadyCancelled when the order's status is already cancelled; in every
other case the code does NOT commit the cancellation: the cart-id lookup
`SELECT cart_id FROM order_items` references a column that does not exist,
so the transaction always rolls back with an internal error, the order's
status is unchanged and no order-cancelled event is published — the
system step for the cancel endpoint is the identity. -/
theorem cancel_order_error_paths (st : OrderState) (orderId : Nat)
    (reason : Option String) :
    (st.orders.find? (fun o => o.id == orderId) = none →
      cancelOrder st orderId reason = Except.error CancelError.notFound) ∧
    (∀ o, st.orders.find? (fun o2 => o2.id == orderId) = some o →
      o.status = "cancelled" →
      cancelOrder st orderId reason = Except.error CancelError.alreadyCancelled) ∧
    (∀ o, st.orders.find? (fun o2 => o2.id == orderId) = some o →
      o.status ≠ "cancelled" →
      cancelOrder st orderId reason = Except.error (CancelError.internalError
        (SqlError.undefinedColumn "order_items" "cart_id"))) ∧
    (∀ s : SysState, sysStep s (SysOp.ordCancel orderId reason) = s) := by
  refine ⟨?_, ?_, ?_, ?_⟩
  · intro h
    simp [cancelOrder, h]
  · intro o hf hs
    simp [cancelOrder, hf, hs]
  · intro o hf hs
    have hsb : (o.status == "cancelled") = false := by
      rw [beq_eq_false_iff_ne]
      exact hs
    simp [cancelOrder, hf, hsb]
  · intro s
    cases h : cancelOrder s.ord orderId reason with
    | ok r => exact absurd h (cancelOrder_ne_ok _ _ _ r)
    | error e => simp only [sysStep, h]

/-- Witness for C7: a missing order, an already-cancelled order, and a
live order that the endpoint fails to cancel. -/
theorem cancel_order_error_paths_witness :
    cancelOrder ⟨[], [], [], 1⟩ 5 none = Except.error CancelError.notFound ∧
    cancelOrder ⟨[⟨1, "u1", "c1", "cancelled", 1000⟩], [], [], 2⟩ 1 none
      = Except.error CancelError.alreadyCancelled ∧
    cancelOrder ⟨[⟨1, "u1", "c1", "created", 1000⟩], [], [], 2⟩ 1 none
      = Except.error (CancelError.internalError
          (SqlError.undefinedColumn "order_items" "cart_id")) ∧
    sysStep ⟨⟨[], [], 0⟩, ⟨[], []⟩, ⟨[⟨1, "u1", "c1", "created", 1000⟩], [], [], 2⟩, ⟨[]⟩⟩
        (SysOp.ordCancel 1 none)
      = ⟨⟨[], [], 0⟩, ⟨[], []⟩, ⟨[⟨1, "u1", "c1", "created", 1000⟩], [], [], 2⟩, ⟨[]⟩⟩ :=
  ⟨(cancel_order_error_paths ⟨[], [], [], 1⟩ 5 none).1 (by decide),
   (cancel_order_error_paths _ 1 none).2.1 ⟨1, "u1", "c1", "cancelled", 1000⟩
     (by decide) (by decide),
   (cancel_order_error_paths _ 1 none).2.2.1 ⟨1, "u1", "c1", "created", 1000⟩
     (by decide) (by decide),
   (cancel_order_error_paths ⟨[⟨1, "u1", "c1", "created", 1000⟩], [], [], 2⟩
     1 none).2.2.2
     ⟨⟨[], [], 0⟩, ⟨[], []⟩, ⟨[⟨1, "u1", "c1", "created", 1000⟩], [], [], 2⟩, ⟨[]⟩⟩⟩

/-- C8: add_item rejects a quantity below 1 as invalid input, and a
sequence of valid add_item calls for the same customer and SKU, starting
with no unlocked cart (and a fresh cart id), ends with the customer's
unlocked cart holding exactly one cart_items row for that SKU whose
quantity is the sum of all added quantities. -/
theorem add_item_accumulates :
    (∀ (st : CartState) (customerId productSku : String) (q : Int), q < 1 →
      addItem st customerId productSku q = Except.error CartError.invalidInput) ∧
    (∀ (st : CartState) (customerId productSku : String) (q : Int)
        (qs : List Int),
      productSku ≠ "" → 1 ≤ q → (∀ x ∈ qs, 1 ≤ x) →
      findUnlockedCart st customerId = none →
      (∀ i ∈ st.cart_items, i.cart_id ≠ newCartId st.nextCartId) →
      cartAccum (addItems st customerId productSku (q :: qs)) customerId
        productSku (newCartId st.nextCartId) ((q :: qs).sum)) := by
  constructor
  · intro st customerId productSku q hq
    unfold addItem
    rw [if_pos]
    simp [hq]
  · intro st customerId productSku q qs hsku hq hqs hnone hfresh
    have hbase := cartAccum_base st customerId productSku q hsku hq hnone hfresh
    have hfold := cartAccum_fold qs (addItemState st customerId productSku q)
      customerId productSku (newCartId st.nextCartId) q hsku hqs hbase
    have : addItems st customerId productSku (q :: qs)
        = addItems (addItemState st customerId productSku q) customerId
            productSku qs := rfl
    rw [this, List.sum_cons]
    exact hfold

/-- Witness for C8: an invalid quantity is rejected, and adding 2 then 3
of the same SKU to a fresh cart yields one line of quantity 5. -/
theorem add_item_accumulates_witness :
    addItem ⟨[], [], 0⟩ "u1" "LAP-001" 0 = Except.error CartError.invalidInput ∧
    cartAccum (addItems ⟨[], [], 0⟩ "u1" "LAP-001" [2, 3]) "u1" "LAP-001"
      (newCartId 0) 5 := by
  constructor
  · exact add_item_accumulates.1 ⟨[], [], 0⟩ "u1" "LAP-001" 0 (by decide)
  · have h := add_item_accumulates.2 ⟨[], [], 0⟩ "u1" "LAP-001" 2 [3]
      (by decide) (by decide) (by decide) (by decide) (by decide)
    simpa using h

/-- C9: processing a checkout-requested event never changes the inventory
table — the availability check is read-only — and across every operation
of the system only the order-cancelled restock handler and the PUT
inventory endpoint write the inventory table. -/
theorem checkout_check_read_only :
    (∀ (st : InvState) (m : Msg OrderRequestedEvent),
      (orderRequestedHandler st m).1.inventory = st.inventory) ∧
    (∀ (s : SysState) (op : SysOp), mutatesInventory op = false →
      (sysStep s op).inv.inventory = s.inv.inventory) := by
  refine ⟨orderRequestedHandler_inventory, ?_⟩
  intro s op hop
  cases op with
  | cartGet cid => rfl
  | cartAddItem cid sku q =>
    cases h : addItem s.cart cid sku q with
    | ok r => simp only [sysStep, h]
    | error e => simp only [sysStep, h]
  | cartRemoveItem cid sku =>
    cases h : removeItem s.cart cid sku with
    | ok r => simp only [sysStep, h]
    | error e => simp only [sysStep, h]
  | cartConvert cid =>
    cases h : convertToOrder s.cart cid with
    | ok r => simp only [sysStep, h]
    | error e => simp only [sysStep, h]
  | cartStockRejected e => rfl
  | cartStockAvailable e => rfl
  | invOrderRequested m =>
    simp only [sysStep]
    exact orderRequestedHandler_inventory s.inv m
  | invOrderCancelled m => simp [mutatesInventory] at hop
  | invPut sku q => simp [mutatesInventory] at hop
  | ordStockAvailable m => rfl
  | ordCreate cid cartId =>
    cases h : createOrderEndpoint s.cart s.ord cid cartId with
    | ok r => exact absurd h (createOrderEndpoint_ne_ok _ _ _ _ r)
    | error e => simp only [sysStep, h]
  | ordCancel oid reason =>
    cases h : cancelOrder s.ord oid reason with
    | ok r => exact absurd h (cancelOrder_ne_ok _ _ _ r)
    | error e => simp only [sysStep, h]
  | notifOrderCreated e => rfl
  | notifOrderCancelled e => rfl
  | notifStockRejected e => rfl

/-- Witness for C9: a checkout-requested delivery leaves the concrete
inventory unchanged. -/
theorem checkout_check_read_only_witness :
    (sysStep ⟨⟨[], [], 0⟩, ⟨[⟨"LAP-001", 10, 5, 50⟩], []⟩, ⟨[], [], [], 1⟩, ⟨[]⟩⟩
        (SysOp.invOrderRequested
          ⟨"m1", ⟨"c1", "u1", [⟨"LAP-001", 2⟩]⟩⟩)).inv.inventory
      = [⟨"LAP-001", 10, 5, 50⟩] := by
  rw [checkout_check_read_only.2
    ⟨⟨[], [], 0⟩, ⟨[⟨"LAP-001", 10, 5, 50⟩], []⟩, ⟨[], [], [], 1⟩, ⟨[]⟩⟩
    (SysOp.invOrderRequested ⟨"m1", ⟨"c1", "u1", [⟨"LAP-001", 2⟩]⟩⟩)
    (by decide)]

/-- C10: a requested line whose SKU has no inventory row is evaluated with
available 0, so any requested quantity of at least 1 makes the whole cart
insufficient: the handler publishes the stock-rejected pair of events and
its details list the unknown SKU with available 0. -/
theorem unknown_sku_rejects (st : InvState) (m : Msg OrderRequestedEvent)
    (item : ReqItem)
    (hnew : isMessageProcessed st.processed m.id "inventory-service" = false)
    (hmem : item ∈ m.data.items)
    (hmiss : st.inventory.find? (fun r => r.product_sku == item.product_sku) = none)
    (hq : 1 ≤ item.quantity) :
    availableQuantity st.inventory item.product_sku = 0 ∧
    ∃ details, (orderRequestedHandler st m).2.1 =
        [InvEvent.inventoryStatus
           { cart_id := m.data.cart_id, customer_id := m.data.customer_id,
             status := "insufficient", details := details },
         InvEvent.stockRejected
           { cart_id := m.data.cart_id, customer_id := m.data.customer_id,
             reason := "insufficient_stock", details := details }] ∧
      ({ product_sku := item.product_sku, requested := item.quantity,
         available := 0 } : CheckDetail) ∈ details := by
  have havail : availableQuantity st.inventory item.product_sku = 0 := by
    unfold availableQuantity
    rw [hmiss]
  refine ⟨havail, ?_⟩
  have hb : ((inventoryChecks st.inventory m.data.items).all
      (fun c => c.sufficient)) = false := by
    cases hAll : ((inventoryChecks st.inventory m.data.items).all
        (fun c => c.sufficient)) with
    | false => rfl
    | true =>
      have h2 := (inventoryChecks_all_iff st.inventory m.data.items).mp hAll
        item hmem
      rw [havail] at h2
      omega
  refine ⟨(inventoryChecks st.inventory m.data.items).map (fun c =>
    { product_sku := c.product_sku, requested := c.requested,
      available := c.available }), ?_, ?_⟩
  · unfold orderRequestedHandler
    rw [if_neg (by rw [hnew]; exact Bool.false_ne_true)]
    dsimp only
    rw [hb]
    rfl
  · have hm : (⟨item.product_sku, item.quantity,
        availableQuantity st.inventory item.product_sku⟩ : CheckDetail)
        ∈ (inventoryChecks st.inventory m.data.items).map (fun c =>
          { product_sku := c.product_sku, requested := c.requested,
            available := c.available }) := by
      unfold inventoryChecks
      rw [List.map_map]
      exact List.mem_map_of_mem _ hmem
    rw [havail] at hm
    exact hm

/-- Witness for C10: a cart requesting one unit of a SKU absent from the
inventory table is rejected with available 0. -/
theorem unknown_sku_rejects_witness :
    availableQuantity ([] : List InventoryRow) "GONE-1" = 0 ∧
    ∃ details, (orderRequestedHandler ⟨[], []⟩
        ⟨"m1", ⟨"c1", "u1", [⟨"GONE-1", 1⟩]⟩⟩).2.1 =
        [InvEvent.inventoryStatus
           { cart_id := "c1", customer_id := "u1",
             status := "insufficient", details := details },
         InvEvent.stockRejected
           { cart_id := "c1", customer_id := "u1",
             reason := "insufficient_stock", details := details }] ∧
      ({ product_sku := "GONE-1", requested := 1, available := 0 }
        : CheckDetail) ∈ details :=
  unknown_sku_rejects ⟨[], []⟩ ⟨"m1", ⟨"c1", "u1", [⟨"GONE-1", 1⟩]⟩⟩
    ⟨"GONE-1", 1⟩ (by decide) (by decide) (by decide) (by decide)
